import Mathlib

/-
  Verification of the batch video-watermarking utility (intel_qsv.py).

  The script is a parameter-validation-and-dispatch wrapper around an external
  encoder.  We give a shallow embedding of its pure core:

  * build_ffmpeg_command      - the command-construction function (source lines 21-42),
  * validate_video_quality    - quality range check (lines 6-8),
  * validate_video_codec      - codec whitelist check (lines 10-12),
  * ensure_font_file_exists   - font existence check (lines 14-16), with the
                                on-disk state passed in explicitly as a Bool,
  * escape_font_file          - the backslash-to-slash normalization (line 84),
  * check_video_files         - recursive discovery by glob patterns (lines 44-48),
  * compute_output_path       - the mirrored output-path computation (lines 89-92),
  * mainRun                   - the dispatcher control flow (lines 50-106), with the
                                filesystem and the encoder abstracted: the recursive
                                listing of the input directory is passed in as a list
                                of paths relative to the input root (rglob only yields
                                paths under the root), and the external encoder is a
                                function from argument lists to exit statuses whose
                                result the dispatcher receives from subprocess.run.

  Paths are modelled as lists of components (Python pathlib on POSIX); rendering a
  path to a string joins the components with "/", which is what str(Path(...))
  produces for the relative paths used here.  Machine strings are Lean Strings.
-/

/-- A single-quote character as a string; the Python source embeds literal
single quotes in the drawtext filter and in printed messages. -/
def squote : String := "\x27"

/-- The drawtext filter expression built by the f-string on source lines 26-29.
The Python source writes a doubled backslash for one literal backslash, so the
actual characters around each comma inside the sub-expressions are backslash
comma, as reproduced here. -/
def drawtext_filter (font_color : String) (font_size : Int) (escaped_font_file : String) : String :=
  "drawtext=fontcolor=" ++ (font_color ++ (":fontsize=" ++ (toString font_size ++
  (":fontfile=" ++ (squote ++ (escaped_font_file ++ (squote ++
  (":text=" ++ (squote ++ ("PINSE.CLUB" ++ (squote ++
  (":x=" ++ (squote ++ ("if(eq(mod(n\\,2000)\\,0)\\,rand(0\\,(w-text_w))\\,x)" ++ (squote ++
  (":y=" ++ (squote ++ ("if(eq(mod(n\\,2000)\\,0)\\,rand(0\\,(h-text_h))\\,y)" ++ (squote ++
  (":enable=" ++ (squote ++ ("lt(mod(n\\,2000)\\,1200)" ++ squote))))))))))))))))))))))

/-- Python list.index restricted to the use on source line 37: the index of the
first occurrence, None when the element is absent (where Python raises ValueError). -/
def py_list_index (x : String) : List String → Option Nat
  | [] => none
  | a :: l => if a = x then some 0 else (py_list_index x l).map (fun i => i + 1)

/-- Source lines 21-42.  The freshly constructed argument list, then the in-place
replacement of the rate-control pair when a bitrate is supplied.  Python argparse
leaves bitrate as None when the flag is absent and the guard is truthiness, so
the absent case and the empty string coincide; we model both as the empty
string.  The none branch of the index lookup is unreachable (see the claim C10
theorems); Python would raise ValueError there. -/
def build_ffmpeg_command (file output_file_name escaped_font_file font_color : String)
    (font_size : Int) (video_codec : String) (video_quality : Int) (bitrate : String) :
    List String :=
  let ffmpeg_command : List String :=
    ["ffmpeg",
     "-hwaccel_output_format", "qsv",
     "-i", file,
     "-vf", drawtext_filter font_color font_size escaped_font_file,
     "-c:v", video_codec,
     "-global_quality", toString video_quality,
     "-c:a", "copy",
     "-y", output_file_name]
  if bitrate ≠ "" then
    match py_list_index ("-global_quality") ffmpeg_command with
    | some crf_index =>
        if 0 ≤ crf_index then
          (ffmpeg_command.set crf_index ("-b:v")).set (crf_index + 1) bitrate
        else ffmpeg_command
    | none => ffmpeg_command
  else ffmpeg_command

/-- Source lines 6-8. -/
def validate_video_quality (video_quality : Int) : Except String Unit :=
  if ¬(0 ≤ video_quality ∧ video_quality ≤ 51) then
    Except.error ("视频质量参数无效，必须在 0 到 51 之间")
  else Except.ok ()

/-- Source lines 10-12. -/
def validate_video_codec (video_codec : String) : Except String Unit :=
  if ¬(video_codec = "hevc_qsv" ∨ video_codec = "h264_qsv") then
    Except.error ("视频编码参数无效，仅支持 hevc_qsv 和 h264_qsv")
  else Except.ok ()

/-- Source lines 14-16; whether the path exists on disk is passed in as a Bool. -/
def ensure_font_file_exists (font_file : String) (exists_on_disk : Bool) : Except String Unit :=
  if exists_on_disk then Except.ok ()
  else Except.error ("字体文件不存在：" ++ font_file)

/-- Source line 84: str(font_file).replace(backslash, slash).  The pattern is a
single character, so Python str.replace is exactly a character map. -/
def escape_font_file (font_file : String) : String :=
  (font_file.toList.map (fun c => if c = '\\' then '/' else c)).asString

/-- Modelled from the spec, not from the code: the escaping that claim C3
describes - path separators (backslashes) normalized to forward slashes and
every colon and comma backslash-escaped as the filter-expression syntax
requires.  Used only to compare the claim against the source behaviour. -/
def claimed_escape_font_file (font_file : String) : String :=
  (font_file.toList.map (fun c =>
    if c = '\\' then ['/']
    else if c = ':' then ['\\', ':']
    else if c = ',' then ['\\', ',']
    else [c])).flatten.asString

/-- The filename of a path: its last component, as pathlib name on the
relative paths that occur here (empty for the empty path). -/
def pname (p : List String) : String := p.getLast?.getD ("")

/-- Python pathlib stem and suffix of a filename: split at the last dot,
provided that dot is neither the first nor the last character; otherwise the
suffix is empty and the stem is the whole name. -/
def py_stem_suffix (name : String) : String × String :=
  let cs := name.toList
  match cs.reverse.findIdx? (fun c => c == '.') with
  | none => (name, "")
  | some j =>
    let i := cs.length - 1 - j
    if 0 < i ∧ i < cs.length - 1 then ((cs.take i).asString, (cs.drop i).asString)
    else (name, "")

/-- pathlib stem of a filename. -/
def pstem (name : String) : String := (py_stem_suffix name).1

/-- pathlib suffix (extension, dot included) of a filename. -/
def psuffix (name : String) : String := (py_stem_suffix name).2

/-- pathlib relative_to on component lists: strip the base prefix; None when
the path is not under the base (where Python raises ValueError). -/
def relative_to (p base : List String) : Option (List String) :=
  if base.isPrefixOf p then some (p.drop base.length) else none

/-- Source lines 89-92: the output path of one input file - the output root
joined with the path of the file relative to the input root, whose last
component (pathlib with_name) is replaced by stem, underscore, suffix,
extension.  pathlib with_name raises when the relative path has no final
component; that case cannot arise for discovered files (they end in a matched
filename) and is modelled by just appending the new name. -/
def compute_output_path (input_directory output_directory : List String)
    (output_suffix : String) (file : List String) : Option (List String) :=
  (relative_to file input_directory).map (fun relative_path =>
    output_directory ++ (relative_path.dropLast ++
      [pstem (pname relative_path) ++ "_" ++ output_suffix ++ psuffix (pname relative_path)]))

/-- Glob matching as exercised by this script: every pattern in the source is a
star followed by a literal remainder, the star matches any (possibly empty)
character sequence within one path component, and the remainder is compared
literally and case-sensitively (pathlib rglob on POSIX).  A pattern with no
leading star would be a literal filename match. -/
def glob_match (pattern name : String) : Bool :=
  match pattern.toList with
  | '*' :: rest => rest.isSuffixOf name.toList
  | _ => name == pattern

/-- Source lines 44-48: for each extension pattern in order, extend the result
with the files of the recursive listing whose name matches the pattern.  The
recursive listing of the input directory is passed in as a list of paths
relative to the input root. -/
def check_video_files (input_files : List (List String)) (video_extensions : List String) :
    List (List String) :=
  video_extensions.flatMap (fun ext => input_files.filter (fun f => glob_match ext (pname f)))

/-- Source line 73: the fixed list of video extension patterns. -/
def video_extensions : List String :=
  ["*.mp4", "*.avi", "*.mkv", "*.mov", "*.wmv", "*.flv", "*.ts", "*.vob",
   "*.webm", "*.3gp", "*.m4v", "*.rmvb"]

/-- Rendering a relative path to the string str(Path(...)) produces on POSIX. -/
def pstr (p : List String) : String := String.intercalate ("/") p

/-- Python enumerate with a start index. -/
def py_enumerate {α : Type} (start : Nat) : List α → List (Nat × α)
  | [] => []
  | x :: xs => (start, x) :: py_enumerate (start + 1) xs

/-- Source line 78. -/
def no_files_message (input_directory : List String) : String :=
  "输入目录 " ++ squote ++ pstr input_directory ++ squote ++ " 中没有找到任何视频文件"

/-- Source line 81. -/
def found_message (input_directory : List String) (n : Nat) : String :=
  "在输入目录 " ++ squote ++ pstr input_directory ++ squote ++ " 中找到 " ++ toString n ++ " 个视频文件"

/-- Source line 101. -/
def progress_line (idx total : Nat) (file output_file_name : String) : String :=
  "[" ++ toString idx ++ "/" ++ toString total ++ "] 正在处理文件: " ++ file ++ " -> " ++ output_file_name

/-- Source line 106. -/
def done_message : String := "所有视频文件处理完成"

/-- The resolved options of one invocation (source lines 52-60); directories as
component lists, the font file as the string it was given as. -/
structure RunArgs where
  input_directory : List String
  output_directory : List String
  output_suffix : String
  video_quality : Int
  video_codec : String
  font_size : Int
  font_color : String
  font_file : String
  bitrate : String

/-- The observable effect trace of one run: lines printed, directories created
(mkdir calls, in order), encoder invocations (argument lists, in order), and
the process exit status. -/
structure RunResult where
  printed : List String
  dirs_created : List (List String)
  commands : List (List String)
  exitCode : Nat

/-- One iteration of the dispatch loop (source lines 87-104) for the file at
the given relative path: the parent directory it ensures, the command it runs,
and the progress line it prints. -/
def process_file (args : RunArgs) (escaped_font_file : String) (total idx : Nat)
    (rel : List String) : List String × List String × String :=
  let file := args.input_directory ++ rel
  let output_file_name :=
    (compute_output_path args.input_directory args.output_directory args.output_suffix file).getD []
  (output_file_name.dropLast,
   build_ffmpeg_command (pstr file) (pstr output_file_name) escaped_font_file
     args.font_color args.font_size args.video_codec args.video_quality args.bitrate,
   progress_line idx total (pstr file) (pstr output_file_name))

/-- Source lines 50-106: the dispatcher.  Validation in source order; on the
first failure the message is printed and the process exits with status 1
(before the output root is created - that check runs last).  Then discovery;
an empty result prints a message and exits with status 1.  Otherwise each file
is processed in order with a 1-based index and the run exits with status 0.
The external encoder is the function encoder_status from argument lists to
exit statuses; subprocess.run hands the dispatcher that status and the source
discards it. -/
def mainRun (args : RunArgs) (font_file_on_disk : Bool) (input_files : List (List String))
    (encoder_status : List String → Int) : RunResult :=
  match validate_video_quality args.video_quality with
  | Except.error e => { printed := [e], dirs_created := [], commands := [], exitCode := 1 }
  | Except.ok _ =>
  match validate_video_codec args.video_codec with
  | Except.error e => { printed := [e], dirs_created := [], commands := [], exitCode := 1 }
  | Except.ok _ =>
  match ensure_font_file_exists args.font_file font_file_on_disk with
  | Except.error e => { printed := [e], dirs_created := [], commands := [], exitCode := 1 }
  | Except.ok _ =>
    let video_files := check_video_files input_files video_extensions
    if video_files.isEmpty then
      { printed := [no_files_message args.input_directory],
        dirs_created := [args.output_directory], commands := [], exitCode := 1 }
    else
      let escaped_font_file := escape_font_file args.font_file
      let steps := (py_enumerate 1 video_files).map
        (fun p => process_file args escaped_font_file video_files.length p.1 p.2)
      let _statuses := steps.map (fun st => encoder_status st.2.1)
      { printed := found_message args.input_directory video_files.length ::
          steps.map (fun st => st.2.2) ++ [done_message],
        dirs_created := args.output_directory :: steps.map (fun st => st.1),
        commands := steps.map (fun st => st.2.1),
        exitCode := 0 }

theorem digitChar_isDigit {m : Nat} (h : m < 10) : m.digitChar.isDigit = true := by
  interval_cases m <;> decide

theorem toDigitsCore_digits (fuel : Nat) :
    ∀ (n : Nat) (ds : List Char), (∀ c ∈ ds, c.isDigit = true) →
      ∀ c ∈ Nat.toDigitsCore 10 fuel n ds, c.isDigit = true := by
  induction fuel with
  | zero => intro n ds h c hc; exact h c hc
  | succ fuel ih =>
    intro n ds h c hc
    rw [show Nat.toDigitsCore 10 (fuel + 1) n ds =
        (if n / 10 = 0 then (n % 10).digitChar :: ds
         else Nat.toDigitsCore 10 fuel (n / 10) ((n % 10).digitChar :: ds)) from rfl] at hc
    have hds : ∀ c ∈ (n % 10).digitChar :: ds, c.isDigit = true := by
      intro c hc
      rcases List.mem_cons.mp hc with h1 | h2
      · subst h1; exact digitChar_isDigit (Nat.mod_lt _ (by norm_num))
      · exact h c h2
    by_cases h0 : n / 10 = 0
    · rw [if_pos h0] at hc; exact hds c hc
    · rw [if_neg h0] at hc; exact ih (n / 10) _ hds c hc

theorem nat_repr_digits (n : Nat) : ∀ c ∈ (Nat.repr n).data, c.isDigit = true := fun c hc =>
  toDigitsCore_digits (n + 1) n [] (by intro c hc; cases hc) c hc

/-- The decimal rendering of an integer consists of digits after an optional
leading minus sign, so it can never equal a string whose tail holds a
non-digit character (such as a flag name). -/
theorem int_toString_ne (q : Int) (s : String) (c : Char)
    (hmem : c ∈ s.data.tail) (hnd : c.isDigit = false) : toString q ≠ s := by
  intro h
  cases q with
  | ofNat m =>
    have hq : toString (Int.ofNat m) = Nat.repr m := rfl
    rw [hq] at h
    have hc : c ∈ (Nat.repr m).data := by
      rw [h]; exact List.mem_of_mem_tail hmem
    have := nat_repr_digits m c hc
    rw [hnd] at this; exact Bool.false_ne_true this
  | negSucc m =>
    have hq : toString (Int.negSucc m) = "-" ++ Nat.repr (m + 1) := rfl
    rw [hq] at h
    have hdata : s.data = '-' :: (Nat.repr (m + 1)).data := by
      rw [← h]; rfl
    have htail : s.data.tail = (Nat.repr (m + 1)).data := by rw [hdata]; rfl
    rw [htail] at hmem
    have := nat_repr_digits (m + 1) c hmem
    rw [hnd] at this; exact Bool.false_ne_true this

theorem drawtext_filter_head (font_color : String) (font_size : Int) (escaped_font_file : String) :
    (drawtext_filter font_color font_size escaped_font_file).data.head? = some 'd' := rfl

/-- The drawtext filter string starts with a d, so it is never equal to any of
the flag strings of the command (they start with a dash). -/
theorem drawtext_filter_ne (font_color : String) (font_size : Int) (escaped_font_file : String)
    (s : String) (hs : s.data.head? ≠ some 'd') :
    drawtext_filter font_color font_size escaped_font_file ≠ s := by
  intro h
  exact hs (h ▸ drawtext_filter_head font_color font_size escaped_font_file)

theorem py_enumerate_map {α β : Type} (h : α → β) (s : Nat) (l : List α) :
    (py_enumerate s l).map (fun p => h p.2) = l.map h := by
  induction l generalizing s with
  | nil => rfl
  | cons x xs ih => simp [py_enumerate, ih]

theorem isPrefixOf_append_self (l t : List String) : l.isPrefixOf (l ++ t) = true := by
  rw [List.isPrefixOf_iff_prefix]; exact List.prefix_append l t

theorem relative_to_append (base rel : List String) :
    relative_to (base ++ rel) base = some rel := by
  unfold relative_to
  rw [if_pos (isPrefixOf_append_self base rel), List.drop_left]

/-- The output path of a file under the input root, in closed form: the none
branch of relative_to never fires for such files. -/
theorem compute_output_path_append (input_directory output_directory : List String)
    (output_suffix : String) (rel : List String) :
    compute_output_path input_directory output_directory output_suffix (input_directory ++ rel) =
      some (output_directory ++ (rel.dropLast ++
        [pstem (pname rel) ++ "_" ++ output_suffix ++ psuffix (pname rel)])) := by
  unfold compute_output_path
  rw [relative_to_append]
  rfl

theorem validate_video_quality_ok {q : Int} (h : 0 ≤ q ∧ q ≤ 51) :
    validate_video_quality q = Except.ok () := by
  unfold validate_video_quality
  rw [if_neg (not_not_intro h)]

theorem validate_video_quality_error {q : Int} (h : ¬(0 ≤ q ∧ q ≤ 51)) :
    validate_video_quality q = Except.error ("视频质量参数无效，必须在 0 到 51 之间") := by
  unfold validate_video_quality
  rw [if_pos h]

theorem validate_video_codec_ok {c : String} (h : c = "hevc_qsv" ∨ c = "h264_qsv") :
    validate_video_codec c = Except.ok () := by
  unfold validate_video_codec
  rw [if_neg (not_not_intro h)]

theorem validate_video_codec_error {c : String} (h : ¬(c = "hevc_qsv" ∨ c = "h264_qsv")) :
    validate_video_codec c = Except.error ("视频编码参数无效，仅支持 hevc_qsv 和 h264_qsv") := by
  unfold validate_video_codec
  rw [if_pos h]

/-- After successful validation the dispatcher reduces to the discovery branch. -/
theorem mainRun_validated (args : RunArgs) (input_files : List (List String))
    (encoder_status : List String → Int)
    (hq : 0 ≤ args.video_quality ∧ args.video_quality ≤ 51)
    (hc : args.video_codec = "hevc_qsv" ∨ args.video_codec = "h264_qsv") :
    mainRun args true input_files encoder_status =
      (let video_files := check_video_files input_files video_extensions
       if video_files.isEmpty then
         { printed := [no_files_message args.input_directory],
           dirs_created := [args.output_directory], commands := [], exitCode := 1 }
       else
         let escaped_font_file := escape_font_file args.font_file
         let steps := (py_enumerate 1 video_files).map
           (fun p => process_file args escaped_font_file video_files.length p.1 p.2)
         { printed := found_message args.input_directory video_files.length ::
             steps.map (fun st => st.2.2) ++ [done_message],
           dirs_created := args.output_directory :: steps.map (fun st => st.1),
           commands := steps.map (fun st => st.2.1),
           exitCode := 0 }) := by
  unfold mainRun
  rw [validate_video_quality_ok hq, validate_video_codec_ok hc]
  rfl

/-- C6: validate_video_quality fails with the invalid-parameter error exactly
when the quality is below 0 or above 51, and succeeds without effect for every
quality between 0 and 51, including the boundary values 0 and 51. -/
theorem claim_validate_quality (video_quality : Int) :
    ((∃ e, validate_video_quality video_quality = Except.error e) ↔
      (video_quality < 0 ∨ 51 < video_quality)) ∧
    (validate_video_quality video_quality = Except.ok () ↔
      (0 ≤ video_quality ∧ video_quality ≤ 51)) ∧
    validate_video_quality 0 = Except.ok () ∧
    validate_video_quality 51 = Except.ok () := by
  refine ⟨?_, ?_, rfl, rfl⟩
  · by_cases h : 0 ≤ video_quality ∧ video_quality ≤ 51
    · rw [validate_video_quality_ok h]
      constructor
      · rintro ⟨e, he⟩; exact absurd he (by simp)
      · intro hlt; omega
    · rw [validate_video_quality_error h]
      constructor
      · intro _; omega
      · intro _; exact ⟨_, rfl⟩
  · by_cases h : 0 ≤ video_quality ∧ video_quality ≤ 51
    · rw [validate_video_quality_ok h]; simp [h]
    · rw [validate_video_quality_error h]; simp [h]

/-- C4: for every file under the input root, the computed output path is the
output root joined with the directory path of the file relative to the input
root, the filename being the original stem, an underscore, the suffix and the
original extension; in particular input root In, file In/sub/clip.mov, output
root Out and suffix wm give exactly Out/sub/clip_wm.mov. -/
theorem claim_output_path :
    (∀ (input_directory output_directory dirs : List String) (name output_suffix : String),
      compute_output_path input_directory output_directory output_suffix
          (input_directory ++ dirs ++ [name]) =
        some (output_directory ++ dirs ++
          [pstem name ++ "_" ++ output_suffix ++ psuffix name])) ∧
    compute_output_path (["In"]) (["Out"]) ("wm") (["In", "sub", "clip.mov"]) =
      some (["Out", "sub", "clip_wm.mov"]) := by
  constructor
  · intro input_directory output_directory dirs name output_suffix
    rw [List.append_assoc, compute_output_path_append, List.dropLast_concat,
      show pname (dirs ++ [name]) = name from by simp [pname, List.getLast?_concat],
      List.append_assoc]
  · decide

/-- C5: discovery over any directory tree returns exactly the files whose
filename matches one of the twelve case-sensitive patterns, and no others; in
particular a directory holding a.mp4, b.MP4 and c.txt, matched only against
the lowercase mp4 pattern, yields exactly a.mp4. -/
theorem claim_discovery :
    (∀ (input_files : List (List String)) (f : List String),
      f ∈ check_video_files input_files video_extensions ↔
        (f ∈ input_files ∧ ∃ pat ∈ video_extensions, glob_match pat (pname f) = true)) ∧
    check_video_files [["a.mp4"], ["b.MP4"], ["c.txt"]] (["*.mp4"]) = [["a.mp4"]] := by
  constructor
  · intro input_files f
    unfold check_video_files
    rw [List.mem_flatMap]
    constructor
    · rintro ⟨pat, hpat, hf⟩
      rw [List.mem_filter] at hf
      exact ⟨hf.1, pat, hpat, hf.2⟩
    · rintro ⟨hf, pat, hpat, hmatch⟩
      exact ⟨pat, hpat, List.mem_filter.mpr ⟨hf, hmatch⟩⟩
  · decide

/-- With an absent (empty) bitrate the builder returns the freshly constructed
argument list unchanged. -/
theorem build_no_bitrate (file output_file_name escaped_font_file font_color : String)
    (font_size : Int) (video_codec : String) (video_quality : Int) :
    build_ffmpeg_command file output_file_name escaped_font_file font_color font_size
        video_codec video_quality "" =
      ["ffmpeg", "-hwaccel_output_format", "qsv", "-i", file, "-vf",
       drawtext_filter font_color font_size escaped_font_file, "-c:v", video_codec,
       "-global_quality", toString video_quality, "-c:a", "copy", "-y", output_file_name] := rfl

/-- The index lookup on the fresh list finds slot 9 whenever no earlier
input-derived slot collides with the flag string. -/
theorem py_list_index_flag (file output_file_name escaped_font_file font_color : String)
    (font_size : Int) (video_codec : String) (video_quality : Int)
    (hfile : file ≠ "-global_quality") (hcodec : video_codec ≠ "-global_quality") :
    py_list_index ("-global_quality")
      ["ffmpeg", "-hwaccel_output_format", "qsv", "-i", file, "-vf",
       drawtext_filter font_color font_size escaped_font_file, "-c:v", video_codec,
       "-global_quality", toString video_quality, "-c:a", "copy", "-y", output_file_name] =
      some 9 := by
  have hfil := drawtext_filter_ne font_color font_size escaped_font_file
    ("-global_quality") (by decide)
  simp [py_list_index, hfile, hcodec, hfil]

/-- C1 (amended): with the bitrate absent (modelled by the empty string, which
Python treats like the absent None), the builder returns exactly the ordered
15-element list of the claim; in particular it holds the two-token sequence
-global_quality, quality at slots 9 and 10, the pair -c:a, copy at slots 11
and 12, and ends with -y, output file at slots 13 and 14.  The flag -b:v does
not occur, provided none of the file, codec and output-file argument strings
is itself the literal string -b:v; the original claim asserted this for all
argument values, which fails when an argument collides with that literal (see
the counterexample). -/
theorem claim_build_no_bitrate (file output_file_name escaped_font_file font_color : String)
    (font_size : Int) (video_codec : String) (video_quality : Int) :
    build_ffmpeg_command file output_file_name escaped_font_file font_color font_size
        video_codec video_quality "" =
      ["ffmpeg", "-hwaccel_output_format", "qsv", "-i", file, "-vf",
       drawtext_filter font_color font_size escaped_font_file, "-c:v", video_codec,
       "-global_quality", toString video_quality, "-c:a", "copy", "-y", output_file_name] ∧
    (build_ffmpeg_command file output_file_name escaped_font_file font_color font_size
        video_codec video_quality "").get? 9 = some ("-global_quality") ∧
    (build_ffmpeg_command file output_file_name escaped_font_file font_color font_size
        video_codec video_quality "").get? 10 = some (toString video_quality) ∧
    (build_ffmpeg_command file output_file_name escaped_font_file font_color font_size
        video_codec video_quality "").get? 11 = some ("-c:a") ∧
    (build_ffmpeg_command file output_file_name escaped_font_file font_color font_size
        video_codec video_quality "").get? 12 = some ("copy") ∧
    (build_ffmpeg_command file output_file_name escaped_font_file font_color font_size
        video_codec video_quality "").get? 13 = some ("-y") ∧
    (build_ffmpeg_command file output_file_name escaped_font_file font_color font_size
        video_codec video_quality "").get? 14 = some output_file_name ∧
    (build_ffmpeg_command file output_file_name escaped_font_file font_color font_size
        video_codec video_quality "").length = 15 ∧
    (file ≠ "-b:v" → video_codec ≠ "-b:v" → output_file_name ≠ "-b:v" →
      "-b:v" ∉ build_ffmpeg_command file output_file_name escaped_font_file font_color
        font_size video_codec video_quality "") := by
  refine ⟨rfl, rfl, rfl, rfl, rfl, rfl, rfl, rfl, ?_⟩
  intro h1 h2 h3 hmem
  rw [build_no_bitrate] at hmem
  simp only [List.mem_cons, List.not_mem_nil, or_false] at hmem
  rcases hmem with h | h | h | h | h | h | h | h | h | h | h | h | h | h | h
  · exact absurd h (by decide)
  · exact absurd h (by decide)
  · exact absurd h (by decide)
  · exact absurd h (by decide)
  · exact h1 h.symm
  · exact absurd h (by decide)
  · exact drawtext_filter_ne font_color font_size escaped_font_file ("-b:v") (by decide) h.symm
  · exact absurd h (by decide)
  · exact h2 h.symm
  · exact absurd h (by decide)
  · exact int_toString_ne video_quality ("-b:v") 'b' (by decide) (by decide) h.symm
  · exact absurd h (by decide)
  · exact absurd h (by decide)
  · exact absurd h (by decide)
  · exact h3 h.symm

/-- C1 counterexample: the claim quantifies over every codec string and
asserts the result never holds -b:v, but passing the literal -b:v as the
codec puts it in the list even with no bitrate. -/
theorem claim_build_no_bitrate_cex :
    "-b:v" ∈ build_ffmpeg_command ("in.mp4") ("out.mp4") ("f.ttf") ("white") 30
      ("-b:v") 18 "" := by decide

/-- C1 witness: the amended no-bitrate facts at concrete arguments. -/
theorem claim_build_no_bitrate_witness :
    ("In/a.mp4" ≠ "-b:v") ∧
    "-b:v" ∉ build_ffmpeg_command ("In/a.mp4") ("Out/a_p.mp4") ("fonts/SimSun.ttf")
      ("white") 30 ("hevc_qsv") 18 "" :=
  ⟨by decide,
   (claim_build_no_bitrate ("In/a.mp4") ("Out/a_p.mp4") ("fonts/SimSun.ttf")
      ("white") 30 ("hevc_qsv") 18).2.2.2.2.2.2.2.2 (by decide) (by decide) (by decide)⟩

/-- With a non-empty bitrate and no collision of the earlier input-derived
slots with the flag string, the builder returns the fresh list with slots 9
and 10 overwritten in place. -/
theorem build_with_bitrate (file output_file_name escaped_font_file font_color : String)
    (font_size : Int) (video_codec : String) (video_quality : Int) (bitrate : String)
    (hb : bitrate ≠ "") (hfile : file ≠ "-global_quality")
    (hcodec : video_codec ≠ "-global_quality") :
    build_ffmpeg_command file output_file_name escaped_font_file font_color font_size
        video_codec video_quality bitrate =
      ["ffmpeg", "-hwaccel_output_format", "qsv", "-i", file, "-vf",
       drawtext_filter font_color font_size escaped_font_file, "-c:v", video_codec,
       "-b:v", bitrate, "-c:a", "copy", "-y", output_file_name] := by
  simp only [build_ffmpeg_command]
  rw [if_pos hb, py_list_index_flag file output_file_name escaped_font_file font_color
    font_size video_codec video_quality hfile hcodec]
  rfl

/-- C2 (amended): with a non-empty bitrate the returned list is the no-bitrate
list with exactly the two consecutive slots 9 and 10 (the slots holding
-global_quality and the quality) overwritten by -b:v and the bitrate: same
length, -b:v and the bitrate at slots 9 and 10, -global_quality nowhere, and
every other slot unchanged - provided none of the file, codec, output-file and
bitrate argument strings is itself the literal -global_quality.  The original
claim asserted this for all argument values; when an earlier slot collides
with that literal the in-place swap hits the wrong slots (see the
counterexample). -/
theorem claim_build_bitrate (file output_file_name escaped_font_file font_color : String)
    (font_size : Int) (video_codec : String) (video_quality : Int) (bitrate : String)
    (hb : bitrate ≠ "") (hfile : file ≠ "-global_quality")
    (hcodec : video_codec ≠ "-global_quality")
    (hout : output_file_name ≠ "-global_quality") (hbit : bitrate ≠ "-global_quality") :
    build_ffmpeg_command file output_file_name escaped_font_file font_color font_size
        video_codec video_quality bitrate =
      ((build_ffmpeg_command file output_file_name escaped_font_file font_color font_size
          video_codec video_quality "").set 9 ("-b:v")).set 10 bitrate ∧
    (build_ffmpeg_command file output_file_name escaped_font_file font_color font_size
        video_codec video_quality bitrate).length =
      (build_ffmpeg_command file output_file_name escaped_font_file font_color font_size
        video_codec video_quality "").length ∧
    (build_ffmpeg_command file output_file_name escaped_font_file font_color font_size
        video_codec video_quality bitrate).get? 9 = some ("-b:v") ∧
    (build_ffmpeg_command file output_file_name escaped_font_file font_color font_size
        video_codec video_quality bitrate).get? 10 = some bitrate ∧
    "-global_quality" ∉ build_ffmpeg_command file output_file_name escaped_font_file
      font_color font_size video_codec video_quality bitrate ∧
    (∀ i : Nat, i ≠ 9 → i ≠ 10 →
      (build_ffmpeg_command file output_file_name escaped_font_file font_color font_size
          video_codec video_quality bitrate).get? i =
        (build_ffmpeg_command file output_file_name escaped_font_file font_color font_size
          video_codec video_quality "").get? i) := by
  have hwb := build_with_bitrate file output_file_name escaped_font_file font_color
    font_size video_codec video_quality bitrate hb hfile hcodec
  refine ⟨by rw [hwb]; rfl, by rw [hwb]; rfl, by rw [hwb]; rfl, by rw [hwb]; rfl, ?_, ?_⟩
  · intro hmem
    rw [hwb] at hmem
    simp only [List.mem_cons, List.not_mem_nil, or_false] at hmem
    rcases hmem with h | h | h | h | h | h | h | h | h | h | h | h | h | h | h
    · exact absurd h (by decide)
    · exact absurd h (by decide)
    · exact absurd h (by decide)
    · exact absurd h (by decide)
    · exact hfile h.symm
    · exact absurd h (by decide)
    · exact drawtext_filter_ne font_color font_size escaped_font_file
        ("-global_quality") (by decide) h.symm
    · exact absurd h (by decide)
    · exact hcodec h.symm
    · exact absurd h (by decide)
    · exact hbit h.symm
    · exact absurd h (by decide)
    · exact absurd h (by decide)
    · exact absurd h (by decide)
    · exact hout h.symm
  · intro i h9 h10
    rw [hwb, build_no_bitrate]
    rcases i with _ | _ | _ | _ | _ | _ | _ | _ | _ | _ | _ | _ | _ | _ | _ | i
    · rfl
    · rfl
    · rfl
    · rfl
    · rfl
    · rfl
    · rfl
    · rfl
    · rfl
    · exact absurd rfl h9
    · exact absurd rfl h10
    · rfl
    · rfl
    · rfl
    · rfl
    · rfl

set_option maxRecDepth 40000 in
/-- C2 counterexample: the claim quantifies over every codec string; with the
codec itself the literal -global_quality, the first occurrence found by the
index step is the codec slot 8, so the swap overwrites slots 8 and 9, the
quality string stays at slot 10, and the result is not the claimed in-place
replacement of slots 9 and 10. -/
theorem claim_build_bitrate_cex :
    (build_ffmpeg_command ("f") ("o") ("e") ("w") 30 ("-global_quality") 18 ("1M")).get? 8 =
      some ("-b:v") ∧
    (build_ffmpeg_command ("f") ("o") ("e") ("w") 30 ("-global_quality") 18 ("1M")).get? 10 =
      some ("18") ∧
    (build_ffmpeg_command ("f") ("o") ("e") ("w") 30 ("-global_quality") 18 ("1M")).get? 9 ≠
      some ("-b:v") ∧
    build_ffmpeg_command ("f") ("o") ("e") ("w") 30 ("-global_quality") 18 ("1M") ≠
      ((build_ffmpeg_command ("f") ("o") ("e") ("w") 30 ("-global_quality") 18 "").set 9
        ("-b:v")).set 10 ("1M") := by
  refine ⟨?_, ?_, ?_, ?_⟩ <;> decide

/-- C2 witness: the amended bitrate-override facts at concrete arguments. -/
theorem claim_build_bitrate_witness :
    ("2M" ≠ "") ∧
    (build_ffmpeg_command ("In/a.mp4") ("Out/a_p.mp4") ("fonts/SimSun.ttf") ("white") 30
      ("hevc_qsv") 18 ("2M")).get? 9 = some ("-b:v") :=
  ⟨by decide,
   (claim_build_bitrate ("In/a.mp4") ("Out/a_p.mp4") ("fonts/SimSun.ttf") ("white") 30
      ("hevc_qsv") 18 ("2M") (by decide) (by decide) (by decide) (by decide)
      (by decide)).2.2.1⟩

/-- C10 (amended): the freshly constructed argument list always holds
-global_quality at index 9, so the index lookup always succeeds - it returns
some index at most 9, Python list.index cannot raise, the nonnegativity guard
always holds and the function is total.  When neither the input-file string
nor the codec string is itself the literal -global_quality, the lookup
returns exactly 9 and the non-empty-bitrate branch writes exactly the two
slots at indices 9 and 10.  The original claim asserted the swap always
writes slots 9 and 10 for all inputs; when an earlier slot collides with the
literal, the first occurrence is earlier and other slots are written (see the
counterexample). -/
theorem claim_build_index (file output_file_name escaped_font_file font_color : String)
    (font_size : Int) (video_codec : String) (video_quality : Int) (bitrate : String) :
    (build_ffmpeg_command file output_file_name escaped_font_file font_color font_size
        video_codec video_quality "").get? 9 = some ("-global_quality") ∧
    (∃ i, i ≤ 9 ∧
      py_list_index ("-global_quality")
        (build_ffmpeg_command file output_file_name escaped_font_file font_color font_size
          video_codec video_quality "") = some i) ∧
    (file ≠ "-global_quality" → video_codec ≠ "-global_quality" →
      py_list_index ("-global_quality")
          (build_ffmpeg_command file output_file_name escaped_font_file font_color font_size
            video_codec video_quality "") = some 9 ∧
      build_ffmpeg_command file output_file_name escaped_font_file font_color font_size
          video_codec video_quality bitrate =
        (if bitrate ≠ "" then
          ((build_ffmpeg_command file output_file_name escaped_font_file font_color font_size
              video_codec video_quality "").set 9 ("-b:v")).set 10 bitrate
         else
          build_ffmpeg_command file output_file_name escaped_font_file font_color font_size
            video_codec video_quality "")) := by
  have hfil := drawtext_filter_ne font_color font_size escaped_font_file
    ("-global_quality") (by decide)
  refine ⟨rfl, ?_, ?_⟩
  · rw [build_no_bitrate]
    by_cases hf : file = "-global_quality"
    · exact ⟨4, by omega, by simp [py_list_index, hf]⟩
    · by_cases hc : video_codec = "-global_quality"
      · exact ⟨8, by omega, by simp [py_list_index, hf, hc, hfil]⟩
      · exact ⟨9, by omega, py_list_index_flag file output_file_name escaped_font_file
          font_color font_size video_codec video_quality hf hc⟩
  · intro hf hc
    have hidx : py_list_index ("-global_quality")
        (build_ffmpeg_command file output_file_name escaped_font_file font_color font_size
          video_codec video_quality "") = some 9 := by
      rw [build_no_bitrate]
      exact py_list_index_flag file output_file_name escaped_font_file font_color
        font_size video_codec video_quality hf hc
    refine ⟨hidx, ?_⟩
    by_cases hb : bitrate = ""
    · subst hb; simp
    · rw [build_with_bitrate file output_file_name escaped_font_file font_color font_size
        video_codec video_quality bitrate hb hf hc, if_pos hb, build_no_bitrate]
      rfl

/-- C10 counterexample: with the input-file string itself the literal
-global_quality, the lookup finds index 4, not 9, and the swap writes slots 4
and 5 - slot 4 becomes -b:v while slot 9 keeps -global_quality - refuting
that the swap always writes exactly the slots at indices 9 and 10. -/
theorem claim_build_index_cex :
    py_list_index ("-global_quality")
      (build_ffmpeg_command ("-global_quality") ("o") ("e") ("w") 30 ("hevc_qsv") 18 "") =
      some 4 ∧
    (build_ffmpeg_command ("-global_quality") ("o") ("e") ("w") 30 ("hevc_qsv") 18
        ("1M")).get? 4 = some ("-b:v") ∧
    (build_ffmpeg_command ("-global_quality") ("o") ("e") ("w") 30 ("hevc_qsv") 18
        ("1M")).get? 5 = some ("1M") ∧
    (build_ffmpeg_command ("-global_quality") ("o") ("e") ("w") 30 ("hevc_qsv") 18
        ("1M")).get? 9 = some ("-global_quality") := by
  refine ⟨?_, ?_, ?_, ?_⟩ <;> decide

/-- C10 witness: the amended lookup facts at concrete collision-free arguments. -/
theorem claim_build_index_witness :
    ("In/a.mp4" ≠ "-global_quality") ∧
    py_list_index ("-global_quality")
      (build_ffmpeg_command ("In/a.mp4") ("Out/a_p.mp4") ("fonts/SimSun.ttf") ("white") 30
        ("hevc_qsv") 18 "") = some 9 :=
  ⟨by decide,
   ((claim_build_index ("In/a.mp4") ("Out/a_p.mp4") ("fonts/SimSun.ttf") ("white") 30
      ("hevc_qsv") 18 ("2M")).2.2 (by decide) (by decide)).1⟩

/-- C3 (amended): the font path embedded in the fontfile portion of the -vf
argument of the built command is exactly the given path with every backslash
replaced by a forward slash and nothing else changed; colons and commas in
the path pass through unchanged rather than being backslash-escaped as the
original claim asserted (see the counterexample). -/
theorem claim_font_escape (font_file file output_file_name font_color : String)
    (font_size : Int) (video_codec : String) (video_quality : Int) :
    (build_ffmpeg_command file output_file_name (escape_font_file font_file) font_color
        font_size video_codec video_quality "").get? 6 =
      some (("drawtext=fontcolor=" ++ (font_color ++ (":fontsize=" ++ (toString font_size ++
        (":fontfile=" ++ (squote ++ (escape_font_file font_file ++ (squote ++
        (":text=" ++ (squote ++ ("PINSE.CLUB" ++ (squote ++
        (":x=" ++ (squote ++ ("if(eq(mod(n\\,2000)\\,0)\\,rand(0\\,(w-text_w))\\,x)" ++ (squote ++
        (":y=" ++ (squote ++ ("if(eq(mod(n\\,2000)\\,0)\\,rand(0\\,(h-text_h))\\,y)" ++ (squote ++
        (":enable=" ++ (squote ++ ("lt(mod(n\\,2000)\\,1200)" ++
          squote)))))))))))))))))))))))) ∧
    escape_font_file ("C:\\fonts\\a b.ttf") = "C:/fonts/a b.ttf" ∧
    escape_font_file ("a:b,c.ttf") = "a:b,c.ttf" :=
  ⟨rfl, rfl, rfl⟩

set_option maxRecDepth 40000 in
/-- C3 counterexample: for a font path holding a colon and a comma the source
embeds the path with those characters unescaped, while the claim requires the
backslash-escaped form; the two disagree, so the fontfile portion does not
contain the claimed normalized-and-escaped form for every input. -/
theorem claim_font_escape_cex :
    escape_font_file ("a:b,c.ttf") = "a:b,c.ttf" ∧
    claimed_escape_font_file ("a:b,c.ttf") = "a\\:b\\,c.ttf" ∧
    escape_font_file ("a:b,c.ttf") ≠ claimed_escape_font_file ("a:b,c.ttf") ∧
    drawtext_filter ("white") 30 (escape_font_file ("a:b,c.ttf")) ≠
      drawtext_filter ("white") 30 (claimed_escape_font_file ("a:b,c.ttf")) := by
  refine ⟨rfl, rfl, ?_, ?_⟩ <;> decide

/-- Concrete options matching the source defaults, for the end-to-end witnesses. -/
def sample_args : RunArgs :=
  { input_directory := ["In"], output_directory := ["Out"], output_suffix := "pinseclub",
    video_quality := 18, video_codec := "hevc_qsv", font_size := 30, font_color := "white",
    font_file := "./fonts/SimSun.ttf", bitrate := "" }

/-- C7: if the quality, codec or font-existence validation fails, the run
prints exactly one message - the error of the first failing check - and exits
with status 1 before any file is touched: no encoder invocation, no per-file
processing and no directory creation, since the only directory-creating check
runs after the three that can fail. -/
theorem claim_validation_gate (args : RunArgs) (font_file_on_disk : Bool)
    (input_files : List (List String)) (encoder_status : List String → Int)
    (h : ¬(0 ≤ args.video_quality ∧ args.video_quality ≤ 51) ∨
         ¬(args.video_codec = "hevc_qsv" ∨ args.video_codec = "h264_qsv") ∨
         font_file_on_disk = false) :
    (mainRun args font_file_on_disk input_files encoder_status).exitCode = 1 ∧
    (mainRun args font_file_on_disk input_files encoder_status).commands = [] ∧
    (mainRun args font_file_on_disk input_files encoder_status).dirs_created = [] ∧
    (∃ e, (mainRun args font_file_on_disk input_files encoder_status).printed = [e] ∧
      (e = "视频质量参数无效，必须在 0 到 51 之间" ∨
       e = "视频编码参数无效，仅支持 hevc_qsv 和 h264_qsv" ∨
       e = "字体文件不存在：" ++ args.font_file)) := by
  by_cases hq : 0 ≤ args.video_quality ∧ args.video_quality ≤ 51
  · by_cases hc : args.video_codec = "hevc_qsv" ∨ args.video_codec = "h264_qsv"
    · have hfont : font_file_on_disk = false := by tauto
      subst hfont
      unfold mainRun
      rw [validate_video_quality_ok hq, validate_video_codec_ok hc]
      exact ⟨rfl, rfl, rfl, _, rfl, Or.inr (Or.inr rfl)⟩
    · unfold mainRun
      rw [validate_video_quality_ok hq, validate_video_codec_error hc]
      exact ⟨rfl, rfl, rfl, _, rfl, Or.inr (Or.inl rfl)⟩
  · unfold mainRun
    rw [validate_video_quality_error hq]
    exact ⟨rfl, rfl, rfl, _, rfl, Or.inl rfl⟩

/-- C7 witness: an out-of-range quality aborts the run before any effect. -/
theorem claim_validation_gate_witness :
    (¬(0 ≤ (-1 : Int) ∧ (-1 : Int) ≤ 51)) ∧
    (mainRun { sample_args with video_quality := -1 } true [] (fun _ => 0)).exitCode = 1 ∧
    (mainRun { sample_args with video_quality := -1 } true [] (fun _ => 0)).commands = [] ∧
    (mainRun { sample_args with video_quality := -1 } true [] (fun _ => 0)).dirs_created = [] :=
  ⟨by decide,
   (claim_validation_gate { sample_args with video_quality := -1 } true [] (fun _ => 0)
      (Or.inl (by decide))).1,
   (claim_validation_gate { sample_args with video_quality := -1 } true [] (fun _ => 0)
      (Or.inl (by decide))).2.1,
   (claim_validation_gate { sample_args with video_quality := -1 } true [] (fun _ => 0)
      (Or.inl (by decide))).2.2.1⟩

/-- C8: with validation succeeding and discovery empty, the run prints the
no-video-files message and exits with status 1, invoking no encoder and
creating no directory entries other than the already-ensured output root. -/
theorem claim_empty_discovery (args : RunArgs) (input_files : List (List String))
    (encoder_status : List String → Int)
    (hq : 0 ≤ args.video_quality ∧ args.video_quality ≤ 51)
    (hc : args.video_codec = "hevc_qsv" ∨ args.video_codec = "h264_qsv")
    (he : check_video_files input_files video_extensions = []) :
    mainRun args true input_files encoder_status =
      { printed := [no_files_message args.input_directory],
        dirs_created := [args.output_directory], commands := [], exitCode := 1 } := by
  rw [mainRun_validated args input_files encoder_status hq hc]
  simp [he]

/-- C8 witness: a run over an empty input tree with the default options. -/
theorem claim_empty_discovery_witness :
    check_video_files ([] : List (List String)) video_extensions = [] ∧
    mainRun sample_args true [] (fun _ => 0) =
      { printed := [no_files_message (["In"])], dirs_created := [["Out"]],
        commands := [], exitCode := 1 } :=
  ⟨rfl, claim_empty_discovery sample_args [] (fun _ => 0) (by decide) (Or.inl rfl) rfl⟩

/-- The closed form of one dispatch-loop iteration: the relative paths handed
to the loop come from the recursive listing, so the relative_to step cannot
fail and the output path is the mirrored one. -/
theorem process_file_eq (args : RunArgs) (escaped_font_file : String) (total idx : Nat)
    (rel : List String) :
    process_file args escaped_font_file total idx rel =
      ((args.output_directory ++ (rel.dropLast ++
          [pstem (pname rel) ++ "_" ++ args.output_suffix ++ psuffix (pname rel)])).dropLast,
       build_ffmpeg_command (pstr (args.input_directory ++ rel))
         (pstr (args.output_directory ++ (rel.dropLast ++
           [pstem (pname rel) ++ "_" ++ args.output_suffix ++ psuffix (pname rel)])))
         escaped_font_file args.font_color args.font_size args.video_codec
         args.video_quality args.bitrate,
       progress_line idx total (pstr (args.input_directory ++ rel))
         (pstr (args.output_directory ++ (rel.dropLast ++
           [pstem (pname rel) ++ "_" ++ args.output_suffix ++ psuffix (pname rel)])))) := by
  simp only [process_file, compute_output_path_append, Option.getD_some]

/-- The full effect trace of a successful run with a non-empty discovery. -/
theorem mainRun_success (args : RunArgs) (input_files : List (List String))
    (encoder_status : List String → Int)
    (hq : 0 ≤ args.video_quality ∧ args.video_quality ≤ 51)
    (hc : args.video_codec = "hevc_qsv" ∨ args.video_codec = "h264_qsv")
    (hne : check_video_files input_files video_extensions ≠ []) :
    mainRun args true input_files encoder_status =
      { printed := found_message args.input_directory
            (check_video_files input_files video_extensions).length ::
          ((py_enumerate 1 (check_video_files input_files video_extensions)).map (fun p =>
            process_file args (escape_font_file args.font_file)
              (check_video_files input_files video_extensions).length p.1 p.2)).map
            (fun st => st.2.2) ++ [done_message],
        dirs_created := args.output_directory ::
          ((py_enumerate 1 (check_video_files input_files video_extensions)).map (fun p =>
            process_file args (escape_font_file args.font_file)
              (check_video_files input_files video_extensions).length p.1 p.2)).map
            (fun st => st.1),
        commands := ((py_enumerate 1 (check_video_files input_files video_extensions)).map (fun p =>
            process_file args (escape_font_file args.font_file)
              (check_video_files input_files video_extensions).length p.1 p.2)).map
            (fun st => st.2.1),
        exitCode := 0 } := by
  rw [mainRun_validated args input_files encoder_status hq hc]
  have hif : (check_video_files input_files video_extensions).isEmpty = false := by
    simpa using hne
  simp only [hif, Bool.false_eq_true, if_false]

/-- C9: with validation succeeding and at least one file discovered, the run
invokes the encoder exactly once per discovered file, in discovery order; it
prints the found message, then one progress line per file with a 1-based
index, then the completion message; it exits with status 0; and the whole
result - in particular the final exit code - is the same for every
encoder-status function, since the status of each invocation is never
inspected and the dispatcher proceeds to the next file regardless. -/
theorem claim_dispatch_loop (args : RunArgs) (input_files : List (List String))
    (encoder_status : List String → Int)
    (hq : 0 ≤ args.video_quality ∧ args.video_quality ≤ 51)
    (hc : args.video_codec = "hevc_qsv" ∨ args.video_codec = "h264_qsv")
    (hne : check_video_files input_files video_extensions ≠ []) :
    (mainRun args true input_files encoder_status).commands =
      (check_video_files input_files video_extensions).map (fun rel =>
        build_ffmpeg_command (pstr (args.input_directory ++ rel))
          (pstr (args.output_directory ++ (rel.dropLast ++
            [pstem (pname rel) ++ "_" ++ args.output_suffix ++ psuffix (pname rel)])))
          (escape_font_file args.font_file) args.font_color args.font_size
          args.video_codec args.video_quality args.bitrate) ∧
    (mainRun args true input_files encoder_status).exitCode = 0 ∧
    (mainRun args true input_files encoder_status).printed =
      found_message args.input_directory
          (check_video_files input_files video_extensions).length ::
        (py_enumerate 1 (check_video_files input_files video_extensions)).map (fun p =>
          progress_line p.1 (check_video_files input_files video_extensions).length
            (pstr (args.input_directory ++ p.2))
            (pstr (args.output_directory ++ (p.2.dropLast ++
              [pstem (pname p.2) ++ "_" ++ args.output_suffix ++ psuffix (pname p.2)])))) ++
        [done_message] ∧
    (∀ other_status : List String → Int,
      mainRun args true input_files other_status =
        mainRun args true input_files encoder_status) := by
  refine ⟨?_, ?_, ?_, fun other_status => rfl⟩
  · rw [mainRun_success args input_files encoder_status hq hc hne]
    show (((py_enumerate 1 (check_video_files input_files video_extensions)).map (fun p =>
        process_file args (escape_font_file args.font_file)
          (check_video_files input_files video_extensions).length p.1 p.2)).map
        (fun st => st.2.1)) = _
    rw [List.map_map]
    have hpt : ∀ p ∈ py_enumerate 1 (check_video_files input_files video_extensions),
        ((fun st : List String × List String × String => st.2.1) ∘ fun p : Nat × List String =>
          process_file args (escape_font_file args.font_file)
            (check_video_files input_files video_extensions).length p.1 p.2) p =
        (fun rel : List String =>
          build_ffmpeg_command (pstr (args.input_directory ++ rel))
            (pstr (args.output_directory ++ (rel.dropLast ++
              [pstem (pname rel) ++ "_" ++ args.output_suffix ++ psuffix (pname rel)])))
            (escape_font_file args.font_file) args.font_color args.font_size
            args.video_codec args.video_quality args.bitrate) p.2 := by
      intro p _
      simp only [Function.comp_apply, process_file_eq]
    rw [List.map_congr_left hpt]
    exact py_enumerate_map (fun rel =>
      build_ffmpeg_command (pstr (args.input_directory ++ rel))
        (pstr (args.output_directory ++ (rel.dropLast ++
          [pstem (pname rel) ++ "_" ++ args.output_suffix ++ psuffix (pname rel)])))
        (escape_font_file args.font_file) args.font_color args.font_size
        args.video_codec args.video_quality args.bitrate) 1
      (check_video_files input_files video_extensions)
  · rw [mainRun_success args input_files encoder_status hq hc hne]
  · rw [mainRun_success args input_files encoder_status hq hc hne]
    show found_message args.input_directory
          (check_video_files input_files video_extensions).length ::
        ((py_enumerate 1 (check_video_files input_files video_extensions)).map (fun p =>
          process_file args (escape_font_file args.font_file)
            (check_video_files input_files video_extensions).length p.1 p.2)).map
          (fun st => st.2.2) ++ [done_message] = _
    rw [List.map_map]
    congr 2
    apply List.map_congr_left
    intro p _
    simp only [Function.comp_apply, process_file_eq]

/-- C9 witness: one discovered file with the default options runs to exit
status 0. -/
theorem claim_dispatch_loop_witness :
    check_video_files [["a.mp4"]] video_extensions ≠ [] ∧
    (mainRun sample_args true [["a.mp4"]] (fun _ => 0)).exitCode = 0 :=
  ⟨by decide,
   (claim_dispatch_loop sample_args [["a.mp4"]] (fun _ => 0) (by decide) (Or.inl rfl)
      (by decide)).2.1⟩
